import Mathlib

/-!
# Verification of the express-mongo-connection user CRUD service

Shallow embedding of the repository's data model, controller handlers and
routing, translated from:

* `src/models/User.js` — the mongoose user schema (normalization, validation,
  unique email index, timestamps),
* `src/controllers/userController.js` — the five CRUD handlers,
* `src/unnamed/part_000` — a second variant of the controller file whose
  `createUser` returns the structured `{error, details}` validation body,
* `src/routes/userRoutes.js` and `src/app.js` — routing table, 404 handler,
  and the startup sequence (`connectDB`; `app.listen`).

Machine-level collaborator behavior (mongoose setters/validators, MongoDB
ObjectId casting, the unique index, timestamp maintenance, the Node.js
event-loop ordering of the top-level script versus promise continuations) is
embedded explicitly where the claims depend on it.
-/

namespace ExpressMongo

/-! ## String helpers: JS `trim`, `lowercase` setters -/

/-- Whitespace trimming as performed by the mongoose `trim: true` setter
(JS `String.prototype.trim`): removes whitespace from both ends. -/
def jsTrim (s : String) : String :=
  String.mk (((s.data.dropWhile Char.isWhitespace).reverse.dropWhile
    Char.isWhitespace).reverse)

/-- Lowercasing as performed by the mongoose `lowercase: true` setter. -/
def jsLower (s : String) : String :=
  String.mk (s.data.map Char.toLower)

/-- The email normalization pipeline of `src/models/User.js` lines 29-36:
`trim: true` and `lowercase: true` setters applied to the raw input. -/
def normalizeEmail (s : String) : String :=
  jsLower (jsTrim s)

/-! ## The email regex of `src/models/User.js` line 35

`/^\w+([.-]?\w+)*@\w+([.-]?\w+)*(\.\w{2,3})+$/`

The matcher below decides this regular expression directly:
* `\w` is a word character `[A-Za-z0-9_]`;
* `\w+([.-]?\w+)*` denotes exactly the nonempty strings over word characters
  and the separators `.`/`-` that begin and end with a word character and
  never place two separators adjacently (word runs joined by optional single
  separators) — decided by the two-state automaton `localAux`;
* `(\.\w{2,3})+` is one or more groups of a dot followed by two or three word
  characters — decided by `tldGroups`;
* the domain is any split into the former followed by the latter — decided by
  trying every split point;
* the whole string is local part, `@`, domain — decided by trying every
  position of `@` (the sub-languages contain no `@`, so only strings with
  exactly one `@` can pass). -/

/-- `\w`: a JS word character. -/
def isWordChar (c : Char) : Bool :=
  c.isAlpha || c.isDigit || c == '_'

/-- Automaton for `\w+([.-]?\w+)*`. The flag records whether the previous
character was a word character; a separator is only legal right after a word
character, and the string must end on a word character. -/
def localAux : List Char → Bool → Bool
  | [], prevWord => prevWord
  | c :: cs, prevWord =>
    if isWordChar c then localAux cs true
    else if (c == '.' || c == '-') && prevWord then localAux cs false
    else false

/-- Decides `\w+([.-]?\w+)*` (starting the automaton before any word
character, so the empty string and a leading separator are rejected). -/
def localOk (l : List Char) : Bool :=
  localAux l false

/-- Automaton for `(\.\w{2,3})+`. States: `0` expects the dot that opens a
block (initial state or just after a complete block… state `0` is only
reachable initially), `1` just after a dot, `2`/`3`/`4` after one/two/three
word characters of the current block. A block is complete in states `3` and
`4`, where the input may end or a new dot may open the next block; a fourth
word character in a block rejects. -/
def tldAux : List Char → Nat → Bool
  | [], s => s == 3 || s == 4
  | c :: cs, 0 => if c == '.' then tldAux cs 1 else false
  | c :: cs, 1 => if isWordChar c then tldAux cs 2 else false
  | c :: cs, 2 => if isWordChar c then tldAux cs 3 else false
  | c :: cs, 3 =>
    if isWordChar c then tldAux cs 4
    else if c == '.' then tldAux cs 1 else false
  | c :: cs, 4 => if c == '.' then tldAux cs 1 else false
  | _ :: _, _ => false

/-- Decides `(\.\w{2,3})+`: one or more groups of a dot followed by two or
three word characters. -/
def tldGroups (l : List Char) : Bool :=
  tldAux l 0

/-- Decides `\w+([.-]?\w+)*(\.\w{2,3})+` by trying every split point. -/
def domainOk (l : List Char) : Bool :=
  (List.range (l.length + 1)).any fun i =>
    localOk (l.take i) && tldGroups (l.drop i)

/-- Decides the full email regex by trying every position for the `@`. -/
def emailOk (s : String) : Bool :=
  (List.range s.data.length).any fun i =>
    (s.data.get? i == some '@') && localOk (s.data.take i)
      && domainOk (s.data.drop (i + 1))

/-! ## Data model (`src/models/User.js`)

A stored user document: the schema fields `name`, `email`, `age`, `isActive`
plus the MongoDB `_id` and the `timestamps: true` fields `createdAt` and
`updatedAt`. Timestamps are modelled as naturals (milliseconds). -/

structure StoredUser where
  id : String
  name : String
  email : String
  age : Option Int
  isActive : Bool
  createdAt : Nat
  updatedAt : Nat
  deriving DecidableEq, Repr

/-- A request body for create/update (`req.body`): each schema field may be
present or absent. -/
structure UserPayload where
  name : Option String := none
  email : Option String := none
  age : Option Int := none
  isActive : Option Bool := none
  deriving DecidableEq, Repr

/-- One entry of a mongoose ValidationError: the path (`err.path`) and the
message (`err.message`), as read off by the controllers. -/
structure FieldError where
  field : String
  message : String
  deriving DecidableEq, Repr

/-! ## Validation (`src/models/User.js` lines 14-48)

Mongoose runs the setters (`trim`, `lowercase`) before the validators and
records at most one error per path, in schema declaration order. -/

/-- Validation of the `name` path: `required: [true, 'Name is required']`
(an absent value, or one that is empty after the `trim: true` setter, fails
the required check) and `maxlength: [50, 'Name cannot exceed 50 characters']`. -/
def validateName : Option String → Option FieldError
  | none => some ⟨"name", "Name is required"⟩
  | some s =>
    let t := jsTrim s
    if t.isEmpty then some ⟨"name", "Name is required"⟩
    else if t.length > 50 then some ⟨"name", "Name cannot exceed 50 characters"⟩
    else none

/-- Validation of the `email` path: `required: [true, 'Email is required']`
after the `trim`/`lowercase` setters, then the regex
`match: [..., 'Please enter a valid email']`. -/
def validateEmail : Option String → Option FieldError
  | none => some ⟨"email", "Email is required"⟩
  | some s =>
    let e := normalizeEmail s
    if e.isEmpty then some ⟨"email", "Email is required"⟩
    else if emailOk e then none
    else some ⟨"email", "Please enter a valid email"⟩

/-- Validation of the `age` path: optional; `min: [0, 'Age cannot be
negative']`, `max: [120, 'Age seems invalid']`. -/
def validateAge : Option Int → Option FieldError
  | none => none
  | some a =>
    if a < 0 then some ⟨"age", "Age cannot be negative"⟩
    else if a > 120 then some ⟨"age", "Age seems invalid"⟩
    else none

/-- Full-document validation as run by `user.save()` on create: every path is
checked (so `required` fires for absent fields), errors collected in schema
order `name`, `email`, `age` (`isActive` has no validators). -/
def validateCreate (p : UserPayload) : List FieldError :=
  (validateName p.name).toList ++ (validateEmail p.email).toList
    ++ (validateAge p.age).toList

/-- Update validation as run by `findByIdAndUpdate(..., { runValidators:
true })`: mongoose update validators run only on the paths present in the
update document. -/
def validateUpdate (p : UserPayload) : List FieldError :=
  (match p.name with
   | none => []
   | some s => (validateName (some s)).toList)
  ++ (match p.email with
      | none => []
      | some s => (validateEmail (some s)).toList)
  ++ (match p.age with
      | none => []
      | some a => (validateAge (some a)).toList)

/-! ## Storage (the MongoDB `users` collection) -/

/-- The stored collection, in insertion order. The unique index on `email`
and uniqueness of `_id` are invariants maintained by the operations. -/
abbrev Store := List StoredUser

/-- MongoDB ObjectId format: mongoose casts a 24-character hex string;
anything else raises a `CastError` on `findById`/`findByIdAndUpdate`/
`findByIdAndDelete`. -/
def isValidObjectId (s : String) : Bool :=
  s.length == 24 && s.data.all fun c =>
    c.isDigit || ('a' ≤ c && c ≤ 'f') || ('A' ≤ c && c ≤ 'F')

/-- Lookup by `_id`. -/
def findInStore (store : Store) (id : String) : Option StoredUser :=
  List.find? (fun u => u.id == id) store

/-! ## HTTP responses

Each constructor of `Body` is one JSON object literal sent by the source:
the shapes are kept distinct so body-shape claims are decidable. -/

inductive Body where
  /-- `{success: true, data: user}` -/
  | successData (data : StoredUser)
  /-- `{success: true, count, data: users}` -/
  | successList (count : Nat) (data : List StoredUser)
  /-- `{success: true, message}` -/
  | successMessage (message : String)
  /-- `{success: false, error}` -/
  | failError (error : String)
  /-- `{success: false, errors: [message, ...]}` — the flat list of
  validation messages (`Object.values(error.errors).map(err => err.message)`). -/
  | failErrors (errors : List String)
  /-- `{success: false, error, details: [{field, message}, ...]}` — the
  structured validation body of the unnamed controller variant's `createUser`. -/
  | failDetails (error : String) (details : List FieldError)
  /-- `{message, version, description, endpoints, documentation}` of `GET /`. -/
  | welcome
  /-- `{error, message, availableEndpoints}` of the 404 handler in
  `src/app.js` lines 129-135. -/
  | routeNotFound (error : String) (message : String)
      (availableEndpoints : List String)
  deriving DecidableEq, Repr

structure Response where
  status : Nat
  body : Body
  deriving DecidableEq, Repr

/-! ## Controller handlers (`src/controllers/userController.js`)

Each handler performs one storage call and maps its outcome to a response.
A handler that can write to the store also returns the resulting store.
`newId` is the ObjectId the storage layer assigns to a created document, and
`now` the current time it stamps. -/

/-- `getUsers` (lines 3-17): `User.find()` then the success envelope with
count and data. -/
def getUsers (store : Store) : Response :=
  { status := 200, body := .successList (List.length store) store }

/-- `getUserById` (lines 19-48): `User.findById(req.params.id)`; a malformed
id raises `CastError` → 400 `'Invalid user ID format'`; `null` → 404
`'User not found'`; otherwise 200 with the document. -/
def getUserById (store : Store) (id : String) : Response :=
  if !isValidObjectId id then
    { status := 400, body := .failError "Invalid user ID format" }
  else
    match findInStore store id with
    | none => { status := 404, body := .failError "User not found" }
    | some u => { status := 200, body := .successData u }

/-- `new User(req.body)` followed by `user.save()`: setters normalize, the
document is validated in full, then inserted; the unique index on `email`
rejects a duplicate (post-normalization) value with error code 11000. -/
inductive SaveResult where
  | created (u : StoredUser)
  | validationFailed (errs : List FieldError)
  | duplicateKey
  deriving DecidableEq, Repr

/-- The storage half of `createUser`: validate the whole document, check the
unique email index, insert with the generated id, `isActive` defaulted to
`true` when absent, and both timestamps set to `now`. On any failure the
store is unchanged. -/
def saveUser (store : Store) (newId : String) (now : Nat) (p : UserPayload) :
    SaveResult × Store :=
  let errs := validateCreate p
  if errs.isEmpty then
    let email := normalizeEmail (p.email.getD "")
    if store.any (fun u => u.email == email) then (.duplicateKey, store)
    else
      let u : StoredUser :=
        { id := newId
          name := jsTrim (p.name.getD "")
          email := email
          age := p.age
          isActive := p.isActive.getD true
          createdAt := now
          updatedAt := now }
      (.created u, store ++ [u])
  else (.validationFailed errs, store)

/-- `createUser` (lines 50-78): save; on success 201 with the saved
document; `ValidationError` → 400 with the flat list of messages;
duplicate-key code 11000 → 400 `'Email already exists'`. -/
def createUser (store : Store) (newId : String) (now : Nat) (p : UserPayload) :
    Response × Store :=
  match saveUser store newId now p with
  | (.created u, s) => ({ status := 201, body := .successData u }, s)
  | (.validationFailed errs, s) =>
    ({ status := 400, body := .failErrors (errs.map FieldError.message) }, s)
  | (.duplicateKey, s) =>
    ({ status := 400, body := .failError "Email already exists" }, s)

/-- `createUser` of the unnamed controller variant (`src/unnamed/part_000`
lines 67-99): identical except that a `ValidationError` is mapped to the
structured body `{success: false, error: 'Validation failed', details:
[{field, message}, ...]}`. -/
def createUserUnnamed (store : Store) (newId : String) (now : Nat)
    (p : UserPayload) : Response × Store :=
  match saveUser store newId now p with
  | (.created u, s) => ({ status := 201, body := .successData u }, s)
  | (.validationFailed errs, s) =>
    ({ status := 400, body := .failDetails "Validation failed" errs }, s)
  | (.duplicateKey, s) =>
    ({ status := 400, body := .failError "Email already exists" }, s)

/-- The `$set` a successful `findByIdAndUpdate` applies: only the paths
present in the update document are written (after their setters), and
`timestamps: true` refreshes `updatedAt`; `_id` and `createdAt` are not
touched. -/
def applyUpdate (u : StoredUser) (p : UserPayload) (now : Nat) : StoredUser :=
  { u with
    name := match p.name with | some s => jsTrim s | none => u.name
    email := match p.email with | some s => normalizeEmail s | none => u.email
    age := match p.age with | some a => some a | none => u.age
    isActive := p.isActive.getD u.isActive
    updatedAt := now }

/-- `updateUser` (lines 80-121): `findByIdAndUpdate(id, body, { new: true,
runValidators: true })`. Cast of the id happens first (`CastError` → 400),
then the update validators on the supplied paths (`ValidationError` → 400
with the flat message list — both controller variants use the flat list
here), then the query (no match → 404); writing a duplicate email violates
the unique index, which `updateUser` has no branch for, so it falls to the
generic 500. -/
def updateUser (store : Store) (id : String) (p : UserPayload) (now : Nat) :
    Response × Store :=
  if !isValidObjectId id then
    ({ status := 400, body := .failError "Invalid user ID format" }, store)
  else
    let errs := validateUpdate p
    if errs.isEmpty then
      match findInStore store id with
      | none => ({ status := 404, body := .failError "User not found" }, store)
      | some u =>
        if (match p.email with
            | some s =>
              store.any fun v => (!(v.id == id)) && (v.email == normalizeEmail s)
            | none => false) then
          ({ status := 500, body := .failError "Failed to update user" }, store)
        else
          let u2 := applyUpdate u p now
          ({ status := 200, body := .successData u2 },
           store.map fun v => if v.id == id then u2 else v)
    else
      ({ status := 400, body := .failErrors (errs.map FieldError.message) },
       store)

/-- `deleteUser` (lines 123-150): `findByIdAndDelete(id)`; malformed id →
400; no match → 404; otherwise the document is removed and 200
`'User deleted successfully'` returned. -/
def deleteUser (store : Store) (id : String) : Response × Store :=
  if !isValidObjectId id then
    ({ status := 400, body := .failError "Invalid user ID format" }, store)
  else
    match findInStore store id with
    | none => ({ status := 404, body := .failError "User not found" }, store)
    | some _ =>
      ({ status := 200, body := .successMessage "User deleted successfully" },
       store.filter fun u => !(u.id == id))

/-! ## Routing (`src/routes/userRoutes.js`, `src/app.js`) -/

structure Request where
  method : String
  path : String
  deriving DecidableEq, Repr

/-- Matching of the `'/:id'` route patterns mounted at `/api/users`: the
path must extend `/api/users/` by exactly one nonempty segment, which is
bound as `req.params.id`. -/
def idSegment (path : String) : Option String :=
  if path.startsWith "/api/users/" then
    let rest := path.drop 11
    if rest.isEmpty || rest.data.contains '/' then none else some rest
  else none

/-- Whether a request matches one of the six mounted routes: `GET /`
(`src/app.js` line 95) and the five user routes of
`src/routes/userRoutes.js` mounted at `/api/users` (`src/app.js` line 80). -/
def routeMatches (req : Request) : Bool :=
  (req.method == "GET" && req.path == "/")
  || ((req.method == "GET" || req.method == "POST")
        && req.path == "/api/users")
  || ((req.method == "GET" || req.method == "PUT" || req.method == "DELETE")
        && (idSegment req.path).isSome)

/-- The `availableEndpoints` array of the 404 handler
(`src/app.js` line 133). -/
def availableEndpoints : List String :=
  ["GET /", "GET /api/users", "GET /api/users/:id", "POST /api/users",
   "PUT /api/users/:id", "DELETE /api/users/:id"]

/-- The catch-all 404 middleware of `src/app.js` lines 129-135: status 404
with the `Route not found` error, a message interpolating the request's
method and path, and the endpoint list. -/
def notFoundResponse (req : Request) : Response :=
  { status := 404
    body := .routeNotFound "Route not found"
      ("The requested endpoint " ++ req.method ++ " " ++ req.path
        ++ " does not exist")
      availableEndpoints }

/-- Dispatch of one request through the express app: `GET /` → welcome,
the five `/api/users` routes → the controller handlers, anything else →
the 404 middleware. -/
def appHandle (store : Store) (newId : String) (now : Nat) (req : Request)
    (body : UserPayload) : Response × Store :=
  if req.method == "GET" && req.path == "/" then
    ({ status := 200, body := .welcome }, store)
  else if req.path == "/api/users" && req.method == "GET" then
    (getUsers store, store)
  else if req.path == "/api/users" && req.method == "POST" then
    createUser store newId now body
  else
    match idSegment req.path with
    | some id =>
      if req.method == "GET" then (getUserById store id, store)
      else if req.method == "PUT" then updateUser store id body now
      else if req.method == "DELETE" then deleteUser store id
      else (notFoundResponse req, store)
    | none => (notFoundResponse req, store)

/-! ## Startup (`src/app.js` lines 53-66 and 168-176)

The top-level script calls `connectDB()` — an async function that starts the
connection attempt and suspends at its `await` — and, without awaiting the
returned promise, proceeds to mount the routes and call `app.listen`. The
`catch` branch of `connectDB` (which logs and calls `process.exit(1)`) runs
only when the connect promise is rejected; external completions delivered
earlier — such as incoming requests to the already-listening server — are
processed first. After `process.exit(1)` nothing further runs.

While the connection is down, only handlers that never touch mongoose can
complete: `GET /` and the 404 middleware respond synchronously; the five
`/api/users` handlers suspend on their buffered storage call and produce no
response before the exit. -/

inductive StartupEvent where
  | connectAttempt
  | listenStarted
  | requestServed (req : Request) (resp : Response)
  | connectFailed
  | processExited (code : Nat)
  deriving DecidableEq, Repr

/-- The response, if any, a request receives while the storage connection is
down: `GET /` and unmatched routes answer without storage; the `/api/users`
routes suspend. -/
def respondsWithoutStorage (req : Request) : Option Response :=
  if req.method == "GET" && req.path == "/" then
    some { status := 200, body := .welcome }
  else if routeMatches req then none
  else some (notFoundResponse req)

/-- The event trace of a startup whose connection attempt fails, `early`
being the requests that reach the listening server before the rejection is
delivered. -/
def startupFailureTrace (early : List Request) : List StartupEvent :=
  [.connectAttempt, .listenStarted]
  ++ (early.filterMap fun r =>
        (respondsWithoutStorage r).map (StartupEvent.requestServed r))
  ++ [.connectFailed, .processExited 1]

/-! ## Helper lemmas about the storage operations -/

/-- A stored user whose id is unique in the collection is the one
`findById` returns. -/
theorem findInStore_eq_some_of_mem (store : Store) (u : StoredUser)
    (hu : u ∈ store) (huniq : ∀ v ∈ store, v.id = u.id → v = u) :
    findInStore store u.id = some u := by
  induction store with
  | nil => cases hu
  | cons v vs ih =>
    cases hb : (v.id == u.id) with
    | true =>
      have hv : v = u := huniq v (List.mem_cons_self v vs) (by simpa using hb)
      simp [findInStore, List.find?_cons, hb, hv]
    | false =>
      have hu' : u ∈ vs := by
        rcases List.mem_cons.mp hu with h | h
        · subst h; simp at hb
        · exact h
      have hrec := ih hu' (fun w hw => huniq w (List.mem_cons_of_mem v hw))
      simpa [findInStore, List.find?_cons, hb] using hrec

/-- A member of the collection makes `findById` succeed (with some
document). -/
theorem findInStore_ne_none_of_mem (store : Store) (u : StoredUser)
    (hu : u ∈ store) : findInStore store u.id ≠ none := by
  intro hnone
  have := List.find?_eq_none.mp hnone u hu
  simp at this

/-- After removing every document with a given id, `findById` on that id
finds nothing. -/
theorem findInStore_filter_self (store : Store) (id : String) :
    findInStore (store.filter fun u => !(u.id == id)) id = none := by
  apply List.find?_eq_none.mpr
  intro x hx
  have h := (List.mem_filter.mp hx).2
  simp at h
  simp [h]

/-- `user.save()` with a document failing validation returns the
ValidationError and leaves the collection unchanged. -/
theorem saveUser_validationFailed (store : Store) (newId : String) (now : Nat)
    (p : UserPayload) (h : validateCreate p ≠ []) :
    saveUser store newId now p = (.validationFailed (validateCreate p), store) := by
  unfold saveUser
  have hne : (validateCreate p).isEmpty = false := by
    cases hv : validateCreate p with
    | nil => exact absurd hv h
    | cons a l => simp
  simp [hne]

/-- `user.save()` with a valid document whose normalized email is already
stored hits the unique index: duplicate-key error, collection unchanged. -/
theorem saveUser_duplicateKey (store : Store) (newId : String) (now : Nat)
    (p : UserPayload) (e : String) (hp : p.email = some e)
    (hvalid : validateCreate p = []) (u : StoredUser) (hu : u ∈ store)
    (he : u.email = normalizeEmail e) :
    saveUser store newId now p = (.duplicateKey, store) := by
  unfold saveUser
  have hany : (store.any fun v => v.email == normalizeEmail (p.email.getD "")) = true :=
    List.any_eq_true.mpr ⟨u, hu, by simp [hp, he]⟩
  simp [hvalid, hany]

/-- `user.save()` with a valid document and a fresh normalized email inserts
the normalized document with the generated id, the `isActive` default and
both timestamps set to now. -/
theorem saveUser_created (store : Store) (newId : String) (now : Nat)
    (p : UserPayload) (e : String) (hp : p.email = some e)
    (hvalid : validateCreate p = [])
    (hnodup : ∀ u ∈ store, u.email ≠ normalizeEmail e) :
    saveUser store newId now p =
      (.created
        { id := newId
          name := jsTrim (p.name.getD "")
          email := normalizeEmail e
          age := p.age
          isActive := p.isActive.getD true
          createdAt := now
          updatedAt := now },
       store ++
        [{ id := newId
           name := jsTrim (p.name.getD "")
           email := normalizeEmail e
           age := p.age
           isActive := p.isActive.getD true
           createdAt := now
           updatedAt := now }]) := by
  unfold saveUser
  have hany : (store.any fun v => v.email == normalizeEmail (p.email.getD "")) = false := by
    apply List.any_eq_false.mpr
    intro v hv
    simpa [hp] using hnodup v hv
  simp [hvalid, hany, hp]
  exact hnodup

/-- `createUser` on a document failing validation: 400 with the flat message
list, collection unchanged. -/
theorem createUser_validationFailed (store : Store) (newId : String)
    (now : Nat) (p : UserPayload) (h : validateCreate p ≠ []) :
    createUser store newId now p =
      ({ status := 400
         body := .failErrors ((validateCreate p).map FieldError.message) },
       store) := by
  unfold createUser
  rw [saveUser_validationFailed store newId now p h]

/-- The unnamed variant's `createUser` on a document failing validation:
400 with the structured `Validation failed` body, collection unchanged. -/
theorem createUserUnnamed_validationFailed (store : Store) (newId : String)
    (now : Nat) (p : UserPayload) (h : validateCreate p ≠ []) :
    createUserUnnamed store newId now p =
      ({ status := 400
         body := .failDetails "Validation failed" (validateCreate p) },
       store) := by
  unfold createUserUnnamed
  rw [saveUser_validationFailed store newId now p h]

/-- `findByIdAndUpdate` with a well-formed id that matches a stored
document, a payload whose supplied paths validate, and no email conflict:
200 with the post-update document, which replaces the stored one. -/
theorem updateUser_success (store : Store) (u : StoredUser) (p : UserPayload)
    (now : Nat) (hid : isValidObjectId u.id = true)
    (hfind : findInStore store u.id = some u)
    (hval : validateUpdate p = [])
    (hnoconf : ∀ e, p.email = some e →
      ∀ v ∈ store, v.id ≠ u.id → v.email ≠ normalizeEmail e) :
    updateUser store u.id p now =
      ({ status := 200, body := .successData (applyUpdate u p now) },
       store.map fun v => if v.id == u.id then applyUpdate u p now else v) := by
  unfold updateUser
  have hdup : (match p.email with
      | some s =>
        store.any fun v => (!(v.id == u.id)) && (v.email == normalizeEmail s)
      | none => false) = false := by
    cases hpe : p.email with
    | none => rfl
    | some s =>
      apply List.any_eq_false.mpr
      intro v hv
      simp only [Bool.and_eq_true, Bool.not_eq_true', beq_eq_false_iff_ne,
        beq_iff_eq, not_and]
      intro h1 h2
      exact hnoconf s hpe v hv h1 h2
  simp [hid, hval, hfind, hdup]

/-- `findByIdAndDelete` with a well-formed id matching a stored document:
200 with the confirmation message; every document with that id is removed. -/
theorem deleteUser_found (store : Store) (id : String)
    (hid : isValidObjectId id = true) (hfind : findInStore store id ≠ none) :
    deleteUser store id =
      ({ status := 200, body := .successMessage "User deleted successfully" },
       store.filter fun u => !(u.id == id)) := by
  unfold deleteUser
  cases hf : findInStore store id with
  | none => exact absurd hf hfind
  | some w => simp [hid, hf]

/-! ## Claim theorems -/

/-- **C1, counterexample.** The create request `{name:"X",
email:"not-an-email"}` fails validation, yet the controller of
`src/controllers/userController.js` answers with the flat body
`{success:false, errors:["Please enter a valid email"]}` — not the claimed
`{success:false, error:"Validation failed", details:[{field:"email",
message:"Please enter a valid email"}]}` shape. -/
theorem C1_counterexample :
    validateCreate ⟨some "X", some "not-an-email", none, none⟩ ≠ [] ∧
    (createUser [] "aaaaaaaaaaaaaaaaaaaaaaaa" 0
        ⟨some "X", some "not-an-email", none, none⟩).1 =
      { status := 400, body := .failErrors ["Please enter a valid email"] } ∧
    (createUser [] "aaaaaaaaaaaaaaaaaaaaaaaa" 0
        ⟨some "X", some "not-an-email", none, none⟩).1.body ≠
      Body.failDetails "Validation failed"
        [⟨"email", "Please enter a valid email"⟩] :=
  ⟨by decide, by decide, by decide⟩

/-- **C1, amended.** A create or update request failing validation always
gets HTTP 400, but the body shape depends on the variant and the operation:
`createUser` of `src/controllers/userController.js` and `updateUser` of both
variants answer `{success:false, errors:[message, ...]}` (a flat list of the
violated fields' messages); only `createUser` of `src/unnamed/part_000`
answers the structured `{success:false, error:"Validation failed",
details:[{field, message}, ...]}` with one entry per violated field. -/
theorem C1_amended (store : Store) (newId id : String) (now : Nat)
    (p q : UserPayload) (hc : validateCreate p ≠ [])
    (hid : isValidObjectId id = true) (hq : validateUpdate q ≠ []) :
    (createUser store newId now p).1 =
      { status := 400
        body := .failErrors ((validateCreate p).map FieldError.message) } ∧
    (createUserUnnamed store newId now p).1 =
      { status := 400
        body := .failDetails "Validation failed" (validateCreate p) } ∧
    (updateUser store id q now).1 =
      { status := 400
        body := .failErrors ((validateUpdate q).map FieldError.message) } := by
  refine ⟨?_, ?_, ?_⟩
  · rw [createUser_validationFailed store newId now p hc]
  · rw [createUserUnnamed_validationFailed store newId now p hc]
  · unfold updateUser
    have hne : (validateUpdate q).isEmpty = false := by
      cases hv : validateUpdate q with
      | nil => exact absurd hv hq
      | cons a l => simp
    simp [hid, hne]

/-- **C1, amended, witness** at the create payload `{name:"X",
email:"not-an-email"}` and an update of `email` to `"not-an-email"`. -/
theorem C1_amended_witness :
    (createUser [] "bbbbbbbbbbbbbbbbbbbbbbbb" 3
        ⟨some "X", some "not-an-email", none, none⟩).1 =
      { status := 400
        body := .failErrors
          ((validateCreate ⟨some "X", some "not-an-email", none, none⟩).map
            FieldError.message) } ∧
    (createUserUnnamed [] "bbbbbbbbbbbbbbbbbbbbbbbb" 3
        ⟨some "X", some "not-an-email", none, none⟩).1 =
      { status := 400
        body := .failDetails "Validation failed"
          (validateCreate ⟨some "X", some "not-an-email", none, none⟩) } ∧
    (updateUser [] "aaaaaaaaaaaaaaaaaaaaaaaa"
        ⟨none, some "not-an-email", none, none⟩ 3).1 =
      { status := 400
        body := .failErrors
          ((validateUpdate ⟨none, some "not-an-email", none, none⟩).map
            FieldError.message) } :=
  C1_amended [] "bbbbbbbbbbbbbbbbbbbbbbbb" "aaaaaaaaaaaaaaaaaaaaaaaa" 3
    ⟨some "X", some "not-an-email", none, none⟩
    ⟨none, some "not-an-email", none, none⟩
    (by decide) (by decide) (by decide)

/-- **C3.** A create whose payload passes validation but whose email, after
trimming and lowercasing, equals the email of an already stored user is
rejected by the unique index and mapped to 400 `Email already exists` (the
code-11000 branch of `createUser`), not the generic 500; the collection is
unchanged. -/
theorem C3_duplicate_email (store : Store) (newId e : String) (now : Nat)
    (p : UserPayload) (hp : p.email = some e)
    (hvalid : validateCreate p = []) (u : StoredUser) (hu : u ∈ store)
    (he : u.email = normalizeEmail e) :
    (createUser store newId now p).1 =
      { status := 400, body := .failError "Email already exists" } ∧
    (createUser store newId now p).2 = store := by
  unfold createUser
  rw [saveUser_duplicateKey store newId now p e hp hvalid u hu he]
  exact ⟨rfl, rfl⟩

/-- **C3, witness**: with `jane@example.com` stored, creating
`{name:"Jane Smith", email:" JANE@Example.com "}` — differing only in case
and surrounding whitespace — answers 400 `Email already exists`. -/
theorem C3_duplicate_email_witness :
    (createUser
        [⟨"aaaaaaaaaaaaaaaaaaaaaaaa", "Jane", "jane@example.com", none,
          true, 1, 1⟩]
        "bbbbbbbbbbbbbbbbbbbbbbbb" 2
        ⟨some "Jane Smith", some " JANE@Example.com ", none, none⟩).1 =
      { status := 400, body := .failError "Email already exists" } ∧
    (createUser
        [⟨"aaaaaaaaaaaaaaaaaaaaaaaa", "Jane", "jane@example.com", none,
          true, 1, 1⟩]
        "bbbbbbbbbbbbbbbbbbbbbbbb" 2
        ⟨some "Jane Smith", some " JANE@Example.com ", none, none⟩).2 =
      [⟨"aaaaaaaaaaaaaaaaaaaaaaaa", "Jane", "jane@example.com", none,
        true, 1, 1⟩] :=
  C3_duplicate_email _ _ " JANE@Example.com " _ _ rfl (by decide)
    ⟨"aaaaaaaaaaaaaaaaaaaaaaaa", "Jane", "jane@example.com", none, true, 1, 1⟩
    (by decide) (by decide)

/-- **C2, counterexample.** In the failure startup of `src/app.js`, the
top-level script calls `app.listen` without awaiting `connectDB()`, so the
server is accepting requests before the connection outcome is delivered: the
trace in which a `GET /` arrives during that window serves it (HTTP 200)
and only then processes the rejection and exits — refuting "never serves
any request against the broken connection". -/
theorem C2_counterexample :
    startupFailureTrace [⟨"GET", "/"⟩] =
      [.connectAttempt, .listenStarted,
       .requestServed ⟨"GET", "/"⟩ { status := 200, body := .welcome },
       .connectFailed, .processExited 1] ∧
    StartupEvent.requestServed ⟨"GET", "/"⟩ { status := 200, body := .welcome }
      ∈ startupFailureTrace [⟨"GET", "/"⟩] :=
  ⟨by decide, by decide⟩

/-- **C2, amended.** When the storage connection fails at startup the
process does terminate — every failure trace ends with `process.exit(1)`,
and nothing runs afterwards — but the server starts listening before the
connection outcome is known, and any request arriving in that window whose
handler does not touch storage (`GET /`, unmatched routes) is served before
the exit; requests to the five storage-backed routes get no response. -/
theorem C2_amended (early : List Request) :
    (startupFailureTrace early).getLast? = some (.processExited 1) ∧
    (startupFailureTrace early).get? 1 = some .listenStarted ∧
    ∀ r resp, StartupEvent.requestServed r resp ∈ startupFailureTrace early →
      respondsWithoutStorage r = some resp := by
  refine ⟨?_, rfl, ?_⟩
  · unfold startupFailureTrace
    rw [List.append_assoc, List.getLast?_append_of_ne_nil]
    · rw [List.getLast?_append_of_ne_nil]
      · rfl
      · simp
    · simp
  · intro r resp hmem
    unfold startupFailureTrace at hmem
    simp at hmem
    exact hmem.2

/-- **C2, amended, witness**: the failure trace with one early unmatched
request ends in `process.exit(1)`, and the request was answered by the 404
middleware, which needs no storage. -/
theorem C2_amended_witness :
    (startupFailureTrace [⟨"GET", "/nope"⟩]).getLast? =
      some (.processExited 1) ∧
    respondsWithoutStorage ⟨"GET", "/nope"⟩ =
      some (notFoundResponse ⟨"GET", "/nope"⟩) :=
  ⟨(C2_amended [⟨"GET", "/nope"⟩]).1,
   (C2_amended [⟨"GET", "/nope"⟩]).2.2 ⟨"GET", "/nope"⟩
     (notFoundResponse ⟨"GET", "/nope"⟩) (by decide)⟩

/-- **C4.** For Get-by-id, Update and Delete alike: an id of invalid
ObjectId format raises `CastError`, surfaced as 400 `Invalid user ID
format`; a well-formed id matching no document yields 404 `User not found`;
and Get-by-id on a stored user's id returns exactly that record with
`success: true` at 200. -/
theorem C4_id_discrimination (store : Store) (bad wf : String)
    (u : StoredUser) (hbad : isValidObjectId bad = false)
    (hwf : isValidObjectId wf = true) (habs : findInStore store wf = none)
    (hu : u ∈ store) (huid : isValidObjectId u.id = true)
    (huniq : ∀ v ∈ store, v.id = u.id → v = u) :
    getUserById store bad =
      { status := 400, body := .failError "Invalid user ID format" } ∧
    (updateUser store bad ⟨none, none, none, none⟩ 0).1 =
      { status := 400, body := .failError "Invalid user ID format" } ∧
    (deleteUser store bad).1 =
      { status := 400, body := .failError "Invalid user ID format" } ∧
    getUserById store wf =
      { status := 404, body := .failError "User not found" } ∧
    (updateUser store wf ⟨none, none, none, none⟩ 0).1 =
      { status := 404, body := .failError "User not found" } ∧
    (deleteUser store wf).1 =
      { status := 404, body := .failError "User not found" } ∧
    getUserById store u.id = { status := 200, body := .successData u } := by
  have hfind := findInStore_eq_some_of_mem store u hu huniq
  refine ⟨?_, ?_, ?_, ?_, ?_, ?_, ?_⟩ <;>
    simp [getUserById, updateUser, deleteUser, validateUpdate, hbad, hwf,
      habs, hfind, huid]

/-- **C4, witness**: with one stored user, the malformed id `"zzz"` gets
400, the absent well-formed id (24 times `b`) gets 404 on all three
operations, and Get-by-id on the stored id returns the stored record. -/
theorem C4_id_discrimination_witness :
    getUserById
        [⟨"aaaaaaaaaaaaaaaaaaaaaaaa", "Jane", "jane@example.com", none,
          true, 1, 1⟩] "zzz" =
      { status := 400, body := .failError "Invalid user ID format" } ∧
    (updateUser
        [⟨"aaaaaaaaaaaaaaaaaaaaaaaa", "Jane", "jane@example.com", none,
          true, 1, 1⟩] "zzz" ⟨none, none, none, none⟩ 0).1 =
      { status := 400, body := .failError "Invalid user ID format" } ∧
    (deleteUser
        [⟨"aaaaaaaaaaaaaaaaaaaaaaaa", "Jane", "jane@example.com", none,
          true, 1, 1⟩] "zzz").1 =
      { status := 400, body := .failError "Invalid user ID format" } ∧
    getUserById
        [⟨"aaaaaaaaaaaaaaaaaaaaaaaa", "Jane", "jane@example.com", none,
          true, 1, 1⟩] "bbbbbbbbbbbbbbbbbbbbbbbb" =
      { status := 404, body := .failError "User not found" } ∧
    (updateUser
        [⟨"aaaaaaaaaaaaaaaaaaaaaaaa", "Jane", "jane@example.com", none,
          true, 1, 1⟩] "bbbbbbbbbbbbbbbbbbbbbbbb"
        ⟨none, none, none, none⟩ 0).1 =
      { status := 404, body := .failError "User not found" } ∧
    (deleteUser
        [⟨"aaaaaaaaaaaaaaaaaaaaaaaa", "Jane", "jane@example.com", none,
          true, 1, 1⟩] "bbbbbbbbbbbbbbbbbbbbbbbb").1 =
      { status := 404, body := .failError "User not found" } ∧
    getUserById
        [⟨"aaaaaaaaaaaaaaaaaaaaaaaa", "Jane", "jane@example.com", none,
          true, 1, 1⟩]
        (StoredUser.id ⟨"aaaaaaaaaaaaaaaaaaaaaaaa", "Jane",
          "jane@example.com", none, true, 1, 1⟩) =
      { status := 200
        body := .successData ⟨"aaaaaaaaaaaaaaaaaaaaaaaa", "Jane",
          "jane@example.com", none, true, 1, 1⟩ } :=
  C4_id_discrimination
    [⟨"aaaaaaaaaaaaaaaaaaaaaaaa", "Jane", "jane@example.com", none, true,
      1, 1⟩]
    "zzz" "bbbbbbbbbbbbbbbbbbbbbbbb"
    ⟨"aaaaaaaaaaaaaaaaaaaaaaaa", "Jane", "jane@example.com", none, true,
      1, 1⟩
    (by decide) (by decide) (by decide) (by decide) (by decide) (by decide)

/-- **C5.** A valid create returns 201; the stored record's email is the
lowercased, trimmed input email; `isActive` is `true` exactly when the field
is absent from the input (and the supplied value otherwise); and an update
never applies the default — an update without `isActive` keeps the stored
value. -/
theorem C5_create_valid (store : Store) (newId e : String) (now : Nat)
    (p : UserPayload) (hp : p.email = some e)
    (hvalid : validateCreate p = [])
    (hnodup : ∀ u ∈ store, u.email ≠ normalizeEmail e) :
    (∃ u : StoredUser,
      (createUser store newId now p).1 =
        { status := 201, body := .successData u } ∧
      u.email = normalizeEmail e ∧
      (p.isActive = none → u.isActive = true) ∧
      (∀ b, p.isActive = some b → u.isActive = b) ∧
      (createUser store newId now p).2 = store ++ [u]) ∧
    (∀ (v : StoredUser) (q : UserPayload) (t : Nat),
      q.isActive = none → (applyUpdate v q t).isActive = v.isActive) := by
  have hsave := saveUser_created store newId now p e hp hvalid hnodup
  constructor
  · refine ⟨{ id := newId, name := jsTrim (p.name.getD "")
              email := normalizeEmail e, age := p.age
              isActive := p.isActive.getD true, createdAt := now
              updatedAt := now }, ?_, rfl, ?_, ?_, ?_⟩
    · unfold createUser
      rw [hsave]
    · intro h
      simp [h]
    · intro b h
      simp [h]
    · unfold createUser
      rw [hsave]
  · intro v q t h
    simp [applyUpdate, h]

/-- **C5, witness**: creating `{name:"Jane Smith", email:"JANE@Example.com",
age:25}` on an empty store — 201, stored email `jane@example.com`,
`isActive` defaulted. -/
theorem C5_create_valid_witness :
    (∃ u : StoredUser,
      (createUser [] "aaaaaaaaaaaaaaaaaaaaaaaa" 5
          ⟨some "Jane Smith", some "JANE@Example.com", some 25, none⟩).1 =
        { status := 201, body := .successData u } ∧
      u.email = normalizeEmail "JANE@Example.com" ∧
      ((⟨some "Jane Smith", some "JANE@Example.com", some 25,
          none⟩ : UserPayload).isActive = none → u.isActive = true) ∧
      (∀ b, (⟨some "Jane Smith", some "JANE@Example.com", some 25,
          none⟩ : UserPayload).isActive = some b → u.isActive = b) ∧
      (createUser [] "aaaaaaaaaaaaaaaaaaaaaaaa" 5
          ⟨some "Jane Smith", some "JANE@Example.com", some 25, none⟩).2 =
        [] ++ [u]) ∧
    (∀ (v : StoredUser) (q : UserPayload) (t : Nat),
      q.isActive = none → (applyUpdate v q t).isActive = v.isActive) :=
  C5_create_valid [] "aaaaaaaaaaaaaaaaaaaaaaaa" "JANE@Example.com" 5
    ⟨some "Jane Smith", some "JANE@Example.com", some 25, none⟩
    rfl (by decide) (by simp)

/-- **C6.** A create payload missing `name` or `email`, with `age` outside
`[0, 120]`, or with a malformed email (after normalization) fails
validation: `createUser` answers 400 with the per-field messages and the
stored collection is returned unchanged — nothing is persisted. -/
theorem C6_invalid_create (store : Store) (newId : String) (now : Nat)
    (p : UserPayload)
    (h : p.name = none ∨ p.email = none
      ∨ (∃ a, p.age = some a ∧ (a < 0 ∨ 120 < a))
      ∨ (∃ e, p.email = some e ∧ emailOk (normalizeEmail e) = false)) :
    validateCreate p ≠ [] ∧
    (createUser store newId now p).1 =
      { status := 400
        body := .failErrors ((validateCreate p).map FieldError.message) } ∧
    (createUser store newId now p).2 = store := by
  have hne : validateCreate p ≠ [] := by
    unfold validateCreate
    rcases h with h | h | ⟨a, ha, hrange⟩ | ⟨e, he, hbad⟩
    · simp [h, validateName, List.append_eq_nil]
    · simp [h, validateEmail, List.append_eq_nil]
    · have hage : validateAge p.age ≠ none := by
        rw [ha]
        unfold validateAge
        rcases hrange with h1 | h1
        · simp [h1]
        · have h2 : ¬ a < 0 := by omega
          simp [h1, h2]
      cases hag : validateAge p.age with
      | none => exact absurd hag hage
      | some fe => simp [hag, List.append_eq_nil]
    · have hemail : validateEmail p.email ≠ none := by
        rw [he]
        unfold validateEmail
        by_cases hemp : (normalizeEmail e).isEmpty
        · simp [hemp]
        · simp [hemp, hbad]
      cases hev : validateEmail p.email with
      | none => exact absurd hev hemail
      | some fe => simp [hev, List.append_eq_nil]
  have hc := createUser_validationFailed store newId now p hne
  exact ⟨hne, by rw [hc], by rw [hc]⟩

/-- **C6, witness**: the empty payload (no `name`, no `email`) is rejected
with both required-field messages and the store (one user) is unchanged. -/
theorem C6_invalid_create_witness :
    validateCreate ⟨none, none, none, none⟩ ≠ [] ∧
    (createUser
        [⟨"aaaaaaaaaaaaaaaaaaaaaaaa", "Jane", "jane@example.com", none,
          true, 1, 1⟩] "bbbbbbbbbbbbbbbbbbbbbbbb" 2
        ⟨none, none, none, none⟩).1 =
      { status := 400
        body := .failErrors
          ((validateCreate ⟨none, none, none, none⟩).map
            FieldError.message) } ∧
    (createUser
        [⟨"aaaaaaaaaaaaaaaaaaaaaaaa", "Jane", "jane@example.com", none,
          true, 1, 1⟩] "bbbbbbbbbbbbbbbbbbbbbbbb" 2
        ⟨none, none, none, none⟩).2 =
      [⟨"aaaaaaaaaaaaaaaaaaaaaaaa", "Jane", "jane@example.com", none,
        true, 1, 1⟩] :=
  C6_invalid_create
    [⟨"aaaaaaaaaaaaaaaaaaaaaaaa", "Jane", "jane@example.com", none, true,
      1, 1⟩]
    "bbbbbbbbbbbbbbbbbbbbbbbb" 2 ⟨none, none, none, none⟩ (Or.inl rfl)

/-- **C7.** A successful partial update on an existing id: the response is
200 with the post-update record; that record keeps the original `id` and
`createdAt`; `updatedAt` strictly increases (the storage layer stamps the
current time, which is later than the record's last stamp); every field
absent from the payload is unchanged; and the collection afterwards holds
the post-update record in place of the original. -/
theorem C7_update_frame (store : Store) (u : StoredUser) (p : UserPayload)
    (now : Nat) (hid : isValidObjectId u.id = true) (hu : u ∈ store)
    (huniq : ∀ v ∈ store, v.id = u.id → v = u)
    (hval : validateUpdate p = [])
    (hnoconf : ∀ e, p.email = some e →
      ∀ v ∈ store, v.id ≠ u.id → v.email ≠ normalizeEmail e)
    (htime : u.updatedAt < now) :
    (updateUser store u.id p now).1 =
      { status := 200, body := .successData (applyUpdate u p now) } ∧
    (applyUpdate u p now).id = u.id ∧
    (applyUpdate u p now).createdAt = u.createdAt ∧
    u.updatedAt < (applyUpdate u p now).updatedAt ∧
    (p.name = none → (applyUpdate u p now).name = u.name) ∧
    (p.email = none → (applyUpdate u p now).email = u.email) ∧
    (p.age = none → (applyUpdate u p now).age = u.age) ∧
    (p.isActive = none → (applyUpdate u p now).isActive = u.isActive) ∧
    (updateUser store u.id p now).2 =
      (store.map fun v => if v.id == u.id then applyUpdate u p now else v) := by
  have hfind := findInStore_eq_some_of_mem store u hu huniq
  have hupd := updateUser_success store u p now hid hfind hval hnoconf
  refine ⟨by rw [hupd], rfl, rfl, htime, ?_, ?_, ?_, ?_, by rw [hupd]⟩
  · intro h; simp [applyUpdate, h]
  · intro h; simp [applyUpdate, h]
  · intro h; simp [applyUpdate, h]
  · intro h; simp [applyUpdate, h]

/-- **C7, witness**: updating only `name` at a later timestamp changes
`name` alone, keeps `id`/`createdAt`, bumps `updatedAt`. -/
theorem C7_update_frame_witness :
    (updateUser
        [⟨"aaaaaaaaaaaaaaaaaaaaaaaa", "Jane", "jane@example.com", none,
          true, 1, 1⟩]
        (StoredUser.id ⟨"aaaaaaaaaaaaaaaaaaaaaaaa", "Jane",
          "jane@example.com", none, true, 1, 1⟩)
        ⟨some "Janet", none, none, none⟩ 2).1 =
      { status := 200
        body := .successData
          (applyUpdate
            ⟨"aaaaaaaaaaaaaaaaaaaaaaaa", "Jane", "jane@example.com", none,
              true, 1, 1⟩
            ⟨some "Janet", none, none, none⟩ 2) } ∧
    (applyUpdate
        ⟨"aaaaaaaaaaaaaaaaaaaaaaaa", "Jane", "jane@example.com", none,
          true, 1, 1⟩
        ⟨some "Janet", none, none, none⟩ 2).id = "aaaaaaaaaaaaaaaaaaaaaaaa" ∧
    (applyUpdate
        ⟨"aaaaaaaaaaaaaaaaaaaaaaaa", "Jane", "jane@example.com", none,
          true, 1, 1⟩
        ⟨some "Janet", none, none, none⟩ 2).createdAt = 1 ∧
    1 < (applyUpdate
        ⟨"aaaaaaaaaaaaaaaaaaaaaaaa", "Jane", "jane@example.com", none,
          true, 1, 1⟩
        ⟨some "Janet", none, none, none⟩ 2).updatedAt ∧
    (applyUpdate
        ⟨"aaaaaaaaaaaaaaaaaaaaaaaa", "Jane", "jane@example.com", none,
          true, 1, 1⟩
        ⟨some "Janet", none, none, none⟩ 2).email = "jane@example.com" := by
  have h := C7_update_frame
    [⟨"aaaaaaaaaaaaaaaaaaaaaaaa", "Jane", "jane@example.com", none, true,
      1, 1⟩]
    ⟨"aaaaaaaaaaaaaaaaaaaaaaaa", "Jane", "jane@example.com", none, true,
      1, 1⟩
    ⟨some "Janet", none, none, none⟩ 2 (by decide) (by decide) (by decide)
    (by decide) (fun e he => absurd he (by simp)) (by decide)
  exact ⟨h.1, h.2.1, h.2.2.1, h.2.2.2.1, h.2.2.2.2.2.1 rfl⟩

/-- **C8.** Deleting a stored id answers 200 with the confirmation message;
a Get-by-id on the same id afterwards answers 404 `User not found`, and so
does a second Delete of the same id — not a second success. -/
theorem C8_delete_idempotent (store : Store) (u : StoredUser)
    (hid : isValidObjectId u.id = true) (hu : u ∈ store) :
    (deleteUser store u.id).1 =
      { status := 200, body := .successMessage "User deleted successfully" } ∧
    getUserById (deleteUser store u.id).2 u.id =
      { status := 404, body := .failError "User not found" } ∧
    (deleteUser (deleteUser store u.id).2 u.id).1 =
      { status := 404, body := .failError "User not found" } := by
  have hdel := deleteUser_found store u.id hid
    (findInStore_ne_none_of_mem store u hu)
  have hnone := findInStore_filter_self store u.id
  refine ⟨by rw [hdel], ?_, ?_⟩
  · rw [hdel]
    simp [getUserById, hid, hnone]
  · rw [hdel]
    simp [deleteUser, hid, hnone]

/-- **C8, witness**: delete, get, delete again on the only stored user. -/
theorem C8_delete_idempotent_witness :
    (deleteUser
        [⟨"aaaaaaaaaaaaaaaaaaaaaaaa", "Jane", "jane@example.com", none,
          true, 1, 1⟩] "aaaaaaaaaaaaaaaaaaaaaaaa").1 =
      { status := 200, body := .successMessage "User deleted successfully" } ∧
    getUserById
        (deleteUser
          [⟨"aaaaaaaaaaaaaaaaaaaaaaaa", "Jane", "jane@example.com", none,
            true, 1, 1⟩] "aaaaaaaaaaaaaaaaaaaaaaaa").2
        "aaaaaaaaaaaaaaaaaaaaaaaa" =
      { status := 404, body := .failError "User not found" } ∧
    (deleteUser
        (deleteUser
          [⟨"aaaaaaaaaaaaaaaaaaaaaaaa", "Jane", "jane@example.com", none,
            true, 1, 1⟩] "aaaaaaaaaaaaaaaaaaaaaaaa").2
        "aaaaaaaaaaaaaaaaaaaaaaaa").1 =
      { status := 404, body := .failError "User not found" } :=
  C8_delete_idempotent
    [⟨"aaaaaaaaaaaaaaaaaaaaaaaa", "Jane", "jane@example.com", none, true,
      1, 1⟩]
    ⟨"aaaaaaaaaaaaaaaaaaaaaaaa", "Jane", "jane@example.com", none, true,
      1, 1⟩
    (by decide) (by decide)

/-- **C9, counterexample.** Two unmatched requests both get 404, but their
bodies differ: the 404 middleware of `src/app.js` interpolates the
request's method and path into a `message` field and attaches an
`availableEndpoints` list, so the response is neither fixed nor the bare
`{error:"Route not found"}` object. -/
theorem C9_counterexample :
    routeMatches ⟨"GET", "/nope"⟩ = false ∧
    routeMatches ⟨"GET", "/other"⟩ = false ∧
    (appHandle [] "aaaaaaaaaaaaaaaaaaaaaaaa" 0 ⟨"GET", "/nope"⟩
        ⟨none, none, none, none⟩).1 =
      { status := 404
        body := .routeNotFound "Route not found"
          "The requested endpoint GET /nope does not exist"
          availableEndpoints } ∧
    (appHandle [] "aaaaaaaaaaaaaaaaaaaaaaaa" 0 ⟨"GET", "/nope"⟩
        ⟨none, none, none, none⟩).1.body ≠
      (appHandle [] "aaaaaaaaaaaaaaaaaaaaaaaa" 0 ⟨"GET", "/other"⟩
        ⟨none, none, none, none⟩).1.body :=
  ⟨by decide, by decide, by decide, by decide⟩

/-- **C9, amended.** Every request matching none of the routing table's
entries gets HTTP 404 from the catch-all middleware; the body's `error`
field is the fixed string `Route not found`, but the body also carries a
request-dependent `message` (interpolating the method and path) and the
`availableEndpoints` list, so the full body is not a fixed
`{error:"Route not found"}` object. -/
theorem C9_unmatched_route (store : Store) (newId : String) (now : Nat)
    (body : UserPayload) (req : Request)
    (h : routeMatches req = false) :
    appHandle store newId now req body = (notFoundResponse req, store) ∧
    (notFoundResponse req).status = 404 ∧
    (notFoundResponse req).body =
      Body.routeNotFound "Route not found"
        ("The requested endpoint " ++ req.method ++ " " ++ req.path
          ++ " does not exist")
        availableEndpoints := by
  refine ⟨?_, rfl, rfl⟩
  unfold routeMatches at h
  unfold appHandle
  cases h1 : (req.method == "GET") <;>
    cases h2 : (req.path == "/") <;>
      cases h3 : (req.path == "/api/users") <;>
        cases h4 : (req.method == "POST") <;>
          cases h5 : (req.method == "PUT") <;>
            cases h6 : (req.method == "DELETE") <;>
              cases h7 : idSegment req.path <;>
                simp_all

/-- **C9, amended, witness**: the unmatched `GET /nope`. -/
theorem C9_unmatched_route_witness :
    appHandle [] "aaaaaaaaaaaaaaaaaaaaaaaa" 0 ⟨"GET", "/nope"⟩
        ⟨none, none, none, none⟩ =
      (notFoundResponse ⟨"GET", "/nope"⟩, []) ∧
    (notFoundResponse ⟨"GET", "/nope"⟩).status = 404 ∧
    (notFoundResponse ⟨"GET", "/nope"⟩).body =
      Body.routeNotFound "Route not found"
        ("The requested endpoint " ++ "GET" ++ " " ++ "/nope"
          ++ " does not exist")
        availableEndpoints :=
  C9_unmatched_route [] "aaaaaaaaaaaaaaaaaaaaaaaa" 0
    ⟨none, none, none, none⟩ ⟨"GET", "/nope"⟩ (by decide)

/-- **C10.** An update with the empty payload on an existing well-formed id
succeeds with 200 and returns the record with `name`, `email`, `age` and
`isActive` all unchanged — the empty update is the identity on the record's
user-supplied content (only `updatedAt` is re-stamped). -/
theorem C10_empty_update (store : Store) (u : StoredUser) (now : Nat)
    (hid : isValidObjectId u.id = true) (hu : u ∈ store)
    (huniq : ∀ v ∈ store, v.id = u.id → v = u) :
    (updateUser store u.id ⟨none, none, none, none⟩ now).1 =
      { status := 200
        body := .successData (applyUpdate u ⟨none, none, none, none⟩ now) } ∧
    (applyUpdate u ⟨none, none, none, none⟩ now).name = u.name ∧
    (applyUpdate u ⟨none, none, none, none⟩ now).email = u.email ∧
    (applyUpdate u ⟨none, none, none, none⟩ now).age = u.age ∧
    (applyUpdate u ⟨none, none, none, none⟩ now).isActive = u.isActive := by
  have hfind := findInStore_eq_some_of_mem store u hu huniq
  have hupd := updateUser_success store u ⟨none, none, none, none⟩ now hid
    hfind rfl (fun e he => absurd he (by simp))
  exact ⟨by rw [hupd], rfl, rfl, rfl, rfl⟩

/-- **C10, witness**: the empty update on the only stored user. -/
theorem C10_empty_update_witness :
    (updateUser
        [⟨"aaaaaaaaaaaaaaaaaaaaaaaa", "Jane", "jane@example.com", none,
          true, 1, 1⟩]
        (StoredUser.id ⟨"aaaaaaaaaaaaaaaaaaaaaaaa", "Jane",
          "jane@example.com", none, true, 1, 1⟩)
        ⟨none, none, none, none⟩ 2).1 =
      { status := 200
        body := .successData
          (applyUpdate
            ⟨"aaaaaaaaaaaaaaaaaaaaaaaa", "Jane", "jane@example.com", none,
              true, 1, 1⟩
            ⟨none, none, none, none⟩ 2) } ∧
    (applyUpdate
        ⟨"aaaaaaaaaaaaaaaaaaaaaaaa", "Jane", "jane@example.com", none,
          true, 1, 1⟩
        ⟨none, none, none, none⟩ 2).name = "Jane" ∧
    (applyUpdate
        ⟨"aaaaaaaaaaaaaaaaaaaaaaaa", "Jane", "jane@example.com", none,
          true, 1, 1⟩
        ⟨none, none, none, none⟩ 2).email = "jane@example.com" ∧
    (applyUpdate
        ⟨"aaaaaaaaaaaaaaaaaaaaaaaa", "Jane", "jane@example.com", none,
          true, 1, 1⟩
        ⟨none, none, none, none⟩ 2).age = none ∧
    (applyUpdate
        ⟨"aaaaaaaaaaaaaaaaaaaaaaaa", "Jane", "jane@example.com", none,
          true, 1, 1⟩
        ⟨none, none, none, none⟩ 2).isActive = true :=
  C10_empty_update
    [⟨"aaaaaaaaaaaaaaaaaaaaaaaa", "Jane", "jane@example.com", none, true,
      1, 1⟩]
    ⟨"aaaaaaaaaaaaaaaaaaaaaaaa", "Jane", "jane@example.com", none, true,
      1, 1⟩
    2 (by decide) (by decide) (by decide)

end ExpressMongo
